import Mathlib

/-!
Verification development for the Calling-Agent backend.

The definitions below are a shallow embedding of the Python
source (FastAPI routes in src/routes/retell_routes.py, the service wrapper
in src/services/retell_service.py, the SQLAlchemy model in
src/app/models.py and the request schema in src/app/schemas.py).

Modelling conventions:
  - The SQLAlchemy store is a list of Call records; a per-record mutation
    followed by commit is an in-place functional update of the first
    matching record (the query uses .first()).
  - Python falsiness of an optional string (None or the empty string) is
    the predicate truthyStr being false.
  - dict.get with a default is Option.getD; a key that is absent or maps
    to None is the value none.
  - An HTTP handler returns a status code, an error flag (HTTPException
    raised vs normal response) and the resulting store.
  - The external signature-verification primitive and the external
    call-placement call are oracle parameters: their observable result is
    an argument of the handler.
-/

/-- The persisted Call record, mirroring the columns of class Call in
src/app/models.py (unused analytics columns interest_level,
callback_requested, callback_time, stop_sequence are omitted; no claim
touches them). Nullable columns are Option. -/
structure Call where
  id : String
  lead_id : Option String
  lead_name : Option String
  lead_phone : Option String
  retell_call_id : Option String
  status : String
  transcript : Option String
  call_summary : Option String
  recording_url : Option String
  duration_ms : Option Int
  created_at : Option String
deriving Repr, DecidableEq

/-- Python truthiness of an optional string: None and the empty string are
falsy, every other string is truthy. -/
def truthyStr : Option String → Bool
  | none => false
  | some s => s ≠ ""

/-- The nested call_analysis object of a call_analyzed webhook payload. -/
structure CallAnalysis where
  call_summary : Option String
deriving Repr, DecidableEq

/-- The call object of a Retell webhook payload, holding exactly the keys
the handler reads (retell_routes.py lines 234, 258-260, 270-274). A key
that is absent or null is none. -/
structure WebhookCallData where
  call_id : Option String
  call_status : Option String
  transcript : Option String
  duration_ms : Option Int
  call_analysis : Option CallAnalysis
  recording_url : Option String
deriving Repr, DecidableEq

/-- A parsed webhook body: the event kind and the call object
(data.get("event", "unknown") and data.get("call", \x7b\x7d)). -/
structure WebhookPayload where
  event : Option String
  call : Option WebhookCallData
deriving Repr, DecidableEq

/-- The default for a missing call object: every key absent. -/
def emptyCallData : WebhookCallData :=
  { call_id := none, call_status := none, transcript := none,
    duration_ms := none, call_analysis := none, recording_url := none }

/-- call_started handler (retell_routes.py lines 253-255): set status to
ongoing. -/
def applyCallStarted (c : Call) : Call :=
  { c with status := "ongoing" }

/-- call_ended handler (retell_routes.py lines 257-260): status from the
event defaulting to ended, transcript and duration_ms overwritten
unconditionally from the event. -/
def applyCallEnded (cd : WebhookCallData) (c : Call) : Call :=
  { c with status := cd.call_status.getD "ended",
           transcript := cd.transcript,
           duration_ms := cd.duration_ms }

/-- call_analyzed handler (retell_routes.py lines 268-275): call_summary
and recording_url written unconditionally from the payload; transcript
written only when the event carries a truthy transcript and the current record
transcript is falsy. -/
def applyCallAnalyzed (cd : WebhookCallData) (c : Call) : Call :=
  let analysis := cd.call_analysis.getD { call_summary := none }
  let c1 := { c with call_summary := analysis.call_summary,
                     recording_url := cd.recording_url }
  if truthyStr cd.transcript && !(truthyStr c1.transcript) then
    { c1 with transcript := cd.transcript }
  else
    c1

/-- Dispatch on the event kind (the if/elif chain of retell_routes.py
lines 253-284); unknown events leave the record unchanged. -/
def applyEvent (event : String) (cd : WebhookCallData) (c : Call) : Call :=
  if event = "call_started" then applyCallStarted c
  else if event = "call_ended" then applyCallEnded cd c
  else if event = "call_analyzed" then applyCallAnalyzed cd c
  else c

/-- Update the first record satisfying p (the query filter plus .first()
followed by mutation and commit). -/
def updateFirst (p : Call → Bool) (f : Call → Call) : List Call → List Call
  | [] => []
  | c :: cs => if p c then f c :: cs else c :: updateFirst p f cs

/-- Result of an HTTP handler: status code, whether it was raised as an
HTTPException, and the store after the request. -/
structure WebhookResponse where
  status : Nat
  isError : Bool
  store : List Call
deriving Repr, DecidableEq

/-- The webhook endpoint (retell_routes.py lines 191-292).

Arguments: api_key and signature are the configured shared secret and the
signature header (empty string = absent); verifyResult is the outcome of
the external verification primitive on this request (none = the primitive
itself raised; the handler logs and proceeds); payload is the parse result
of the body (none = invalid JSON). -/
def retell_webhook (api_key signature : String) (verifyResult : Option Bool)
    (payload : Option WebhookPayload) (store : List Call) : WebhookResponse :=
  let afterVerify : WebhookResponse :=
    match payload with
    | none => { status := 400, isError := true, store := store }
    | some data =>
      let event := data.event.getD "unknown"
      let cd := data.call.getD emptyCallData
      if !(truthyStr cd.call_id) then
        { status := 204, isError := false, store := store }
      else
        match store.find? (fun c => c.retell_call_id == cd.call_id) with
        | none => { status := 204, isError := false, store := store }
        | some _ =>
          { status := 204, isError := false,
            store := updateFirst (fun c => c.retell_call_id == cd.call_id)
                       (applyEvent event cd) store }
  if api_key ≠ "" ∧ signature ≠ "" then
    match verifyResult with
    | some false => { status := 401, isError := true, store := store }
    | _ => afterVerify
  else
    afterVerify

/-! ## Call initiation flow -/

/-- The request schema InitiateCallRequest of src/app/schemas.py lines
4-21: exactly the declared pydantic fields, with their optionality. -/
structure InitiateCallRequest where
  orgId : String
  userId : String
  sequenceId : String
  leadId : String
  leadName : String
  leadPhone : String
  leadCompany : Option String
  language : String
  callPurpose : String
  callingScript : String
  callerName : String
  orgName : String
  agent_id : Option String
  from_number : Option String
deriving Repr, DecidableEq

/-- A pydantic field value as the route reads it: either a plain string
field or an optional-string field. -/
inductive AttrVal where
  | s (v : String)
  | os (v : Option String)
deriving Repr, DecidableEq

/-- The attribute table of an InitiateCallRequest instance: the declared
fields of the pydantic model, by name. Attribute access on any other name
raises AttributeError (pydantic stores only declared fields; the model
does not allow extra attributes). -/
def InitiateCallRequest.attrs (r : InitiateCallRequest) : List (String × AttrVal) :=
  [("orgId", .s r.orgId), ("userId", .s r.userId),
   ("sequenceId", .s r.sequenceId), ("leadId", .s r.leadId),
   ("leadName", .s r.leadName), ("leadPhone", .s r.leadPhone),
   ("leadCompany", .os r.leadCompany), ("language", .s r.language),
   ("callPurpose", .s r.callPurpose), ("callingScript", .s r.callingScript),
   ("callerName", .s r.callerName), ("orgName", .s r.orgName),
   ("agent_id", .os r.agent_id), ("from_number", .os r.from_number)]

/-- Python attribute access: some value when the attribute exists, none
when access raises AttributeError. -/
def pyGetattr (r : InitiateCallRequest) (name : String) : Option AttrVal :=
  (r.attrs).lookup name

/-- Python x-or-default on an optional string: the value when truthy,
otherwise the default. -/
def pyOr (v : Option String) (d : String) : String :=
  match v with
  | some s => if s ≠ "" then s else d
  | none => d

/-- Failure modes of RetellService.initiate_call: a RetellConfigError or
any other exception from the provider client. -/
inductive RetellError where
  | config
  | api
deriving Repr, DecidableEq

/-- The environment-derived service configuration (RETELL_AGENT_ID and
RETELL_FROM_NUMBER, src/services/retell_service.py lines 39-40; empty
string when unset). -/
structure RetellConfig where
  default_agent_id : String
  default_from_number : String
deriving Repr, DecidableEq

/-- The observable outcome of the external create_phone_call operation:
the call_id and call_status keys of the returned call object on success (none
when absent), or an exception. -/
inductive ProviderOutcome where
  | ok (call_id : Option String) (call_status : Option String)
  | err
deriving Repr, DecidableEq

/-- RetellService.initiate_call (src/services/retell_service.py lines
43-102): resolve agent id and caller number against the configured
defaults, raise RetellConfigError when either resolves to falsy, then
perform the external call and return its call object. -/
def RetellService.initiate_call (cfg : RetellConfig)
    (agent_id from_number : Option String) (outcome : ProviderOutcome) :
    Except RetellError (Option String × Option String) :=
  let resolved_agent_id := pyOr agent_id cfg.default_agent_id
  let resolved_from_number := pyOr from_number cfg.default_from_number
  if resolved_agent_id = "" then .error .config
  else if resolved_from_number = "" then .error .config
  else
    match outcome with
    | .ok cid cstatus => .ok (cid, cstatus)
    | .err => .error .api

/-- The body of initiate_retell_call from the record construction onward
(retell_routes.py lines 64-125), given the values the route read from the
request: create and commit a provisional record with status initiated,
invoke the service, and reconcile.

A RetellConfigError deletes the provisional record and yields 400; any
other provider failure keeps it, marks it failed and yields 502; success
stores the provider call id and the provider call_status defaulting to
registered. newId is the fresh uuid primary key. The metadata and
dynamic-variables dicts built in between only flow into the external call,
whose outcome is already a parameter. -/
def initiate_flow (cfg : RetellConfig) (outcome : ProviderOutcome)
    (newId : String) (lead_id lead_name : String) (to_number : Option String)
    (agent_id from_number : Option String) (store : List Call) : WebhookResponse :=
  let call : Call :=
    { id := newId, lead_id := some lead_id, lead_name := some lead_name,
      lead_phone := to_number, retell_call_id := none, status := "initiated",
      transcript := none, call_summary := none, recording_url := none,
      duration_ms := none, created_at := none }
  let store1 := store ++ [call]
  match RetellService.initiate_call cfg agent_id from_number outcome with
  | .error .config =>
    { status := 400, isError := true,
      store := store1.filter (fun c => !(c.id == newId)) }
  | .error .api =>
    { status := 502, isError := true,
      store := updateFirst (fun c => c.id == newId)
                 (fun c => { c with status := "failed" }) store1 }
  | .ok (cid, cstatus) =>
    { status := 200, isError := false,
      store := updateFirst (fun c => c.id == newId)
                 (fun c => { c with retell_call_id := cid,
                                    status := cstatus.getD "registered" }) store1 }

/-- The POST /api/retell/call handler (retell_routes.py lines 55-134).

The route body begins by evaluating Call(lead_id=request.lead_id or "N/A",
lead_name=request.lead_name or "Unknown", lead_phone=request.to_number,
status="initiated"): it reads the attributes lead_id, lead_name and
to_number of the request (and later metadata and agent overrides). When an
attribute access raises AttributeError it is caught by the generic
exception handler at lines 129-132: the session is rolled back (nothing
was committed yet) and HTTP 500 is returned. -/
def initiate_retell_call (cfg : RetellConfig) (outcome : ProviderOutcome)
    (newId : String) (req : InitiateCallRequest) (store : List Call) : WebhookResponse :=
  match pyGetattr req "lead_id", pyGetattr req "lead_name", pyGetattr req "to_number" with
  | some lid, some lname, some tonum =>
    initiate_flow cfg outcome newId
      (pyOr (match lid with | .s v => some v | .os v => v) "N/A")
      (pyOr (match lname with | .s v => some v | .os v => v) "Unknown")
      (match tonum with | .s v => some v | .os v => v)
      req.agent_id req.from_number store
  | _, _, _ => { status := 500, isError := true, store := store }

/-! ## List and detail endpoints -/

/-- A JSON field value in a response dict. -/
inductive FieldVal where
  | str (s : String)
  | ostr (o : Option String)
  | oint (o : Option Int)
  | bool (b : Bool)
deriving Repr, DecidableEq

/-- The per-record summary dict of GET /api/retell/calls
(retell_routes.py lines 314-325). -/
def list_item (c : Call) : List (String × FieldVal) :=
  [("id", .str c.id), ("retell_call_id", .ostr c.retell_call_id),
   ("lead_name", .ostr c.lead_name), ("lead_phone", .ostr c.lead_phone),
   ("status", .str c.status), ("duration_ms", .oint c.duration_ms),
   ("has_transcript", .bool (truthyStr c.transcript)),
   ("has_summary", .bool (truthyStr c.call_summary)),
   ("recording_url", .ostr c.recording_url),
   ("created_at", .ostr c.created_at)]

/-- The detail dict of GET /api/retell/calls/\x7bcall_id\x7d
(retell_routes.py lines 353-365). -/
def detail_item (c : Call) : List (String × FieldVal) :=
  [("id", .str c.id), ("retell_call_id", .ostr c.retell_call_id),
   ("lead_id", .ostr c.lead_id), ("lead_name", .ostr c.lead_name),
   ("lead_phone", .ostr c.lead_phone), ("status", .str c.status),
   ("duration_ms", .oint c.duration_ms), ("transcript", .ostr c.transcript),
   ("call_summary", .ostr c.call_summary),
   ("recording_url", .ostr c.recording_url),
   ("created_at", .ostr c.created_at)]

/-! ## Sample data for concrete instances -/

/-- A stored call record already correlated with provider call id rc1. -/
def callRecordA : Call :=
  { id := "internal-1", lead_id := some "lead1", lead_name := some "Shivi",
    lead_phone := some "+916261652154", retell_call_id := some "rc1",
    status := "registered", transcript := none, call_summary := none,
    recording_url := none, duration_ms := none, created_at := none }

/-- A stored call record that already holds a summary and a recording. -/
def callRecordB : Call :=
  { callRecordA with transcript := some "old transcript",
                     call_summary := some "old summary",
                     recording_url := some "http://rec/old" }

/-- A webhook call object for rc1 carrying nothing but the id. -/
def cdBare : WebhookCallData :=
  { emptyCallData with call_id := some "rc1" }

/-- A call_ended payload for rc1 with a full transcript and duration. -/
def cdEndedFull : WebhookCallData :=
  { emptyCallData with call_id := some "rc1", call_status := some "ended",
                       transcript := some "full transcript",
                       duration_ms := some 120000 }

/-- A call_analyzed payload for rc1 carrying a non-empty transcript but no
analysis object and no recording url. -/
def cdAnalyzedHello : WebhookCallData :=
  { emptyCallData with call_id := some "rc1", transcript := some "hello" }

/-- The example request of the InitiateCallRequest schema
(src/app/schemas.py lines 22-38), with no per-request overrides. -/
def sampleRequest : InitiateCallRequest :=
  { orgId := "org1", userId := "user1", sequenceId := "seq1",
    leadId := "lead1", leadName := "Shivi", leadPhone := "+916261652154",
    leadCompany := some "Hashtechy", language := "en",
    callPurpose := "Quick introduction to our AI services",
    callingScript := "Introduce company briefly",
    callerName := "Salesy", orgName := "Hashtechy",
    agent_id := none, from_number := none }

/-! ## Helper lemmas -/

/-- truthyStr of an absent value is false. -/
theorem truthyStr_none : truthyStr none = false := rfl

/-- A webhook event on a singleton store whose record matches the event id
applies the per-event transition to that record and acknowledges. -/
theorem webhook_matched_singleton (ev : String) (cd : WebhookCallData) (c : Call)
    (i : String) (hi : i ≠ "") (hc : c.retell_call_id = some i)
    (hcd : cd.call_id = some i) :
    retell_webhook "" "" none (some { event := some ev, call := some cd }) [c]
      = { status := 204, isError := false, store := [applyEvent ev cd c] } := by
  simp [retell_webhook, truthyStr, hcd, hi, List.find?, updateFirst, hc]

/-- updateFirst on a store extended with a fresh record rewrites exactly
that record. -/
theorem updateFirst_fresh (f : Call → Call) (store : List Call) (x : Call)
    (n : String) (hx : x.id = n) (h : ∀ c ∈ store, c.id ≠ n) :
    updateFirst (fun c => c.id == n) f (store ++ [x]) = store ++ [f x] := by
  induction store with
  | nil => simp [updateFirst, hx]
  | cons a as ih =>
    have ha : (a.id == n) = false := by simp [h a (by simp)]
    simp only [List.cons_append, updateFirst, ha, Bool.false_eq_true, if_false]
    simp [ih (fun c hc => h c (by simp [hc]))]

/-- Deleting a freshly appended record restores the original store. -/
theorem filter_fresh (store : List Call) (x : Call) (n : String)
    (hx : x.id = n) (h : ∀ c ∈ store, c.id ≠ n) :
    (store ++ [x]).filter (fun c => !(c.id == n)) = store := by
  rw [List.filter_append]
  have h1 : store.filter (fun c => !(c.id == n)) = store :=
    List.filter_eq_self.mpr (fun a ha => by simp [h a ha])
  simp [h1, hx]

/-! ## Claim C1 -/

/-- Claim C1, counterexample: as stated the claim is false. For a matched
record, a call_ended event whose transcript key is absent leaves the
record transcript unset (first conjunct), and a following call_analyzed
event carrying the non-empty transcript hello then backfills it (second
conjunct), so the final transcript is not the value written by the
call_ended event. -/
theorem claim1_counterexample :
    ((retell_webhook "" "" none
        (some { event := some "call_ended", call := some cdBare })
        [callRecordA]).store.map Call.transcript = [none])
    ∧ ((retell_webhook "" "" none
        (some { event := some "call_analyzed", call := some cdAnalyzedHello })
        ((retell_webhook "" "" none
          (some { event := some "call_ended", call := some cdBare })
          [callRecordA]).store)).store.map Call.transcript = [some "hello"]) := by
  exact ⟨by decide, by decide⟩

/-- Claim C1, amended: for a record matched by provider call id, if a
call_ended event carrying a non-empty transcript is applied and then a
call_analyzed event for the same id is applied, the final transcript is
exactly the one set by call_ended; and the call_analyzed handler never
overwrites any record transcript that is already non-empty. -/
theorem claim1_transcript_preserved (c : Call) (i : String)
    (cdE cdA : WebhookCallData) (hi : i ≠ "") (hc : c.retell_call_id = some i)
    (hE : cdE.call_id = some i) (hA : cdA.call_id = some i)
    (ht : truthyStr cdE.transcript = true) :
    ((retell_webhook "" "" none
        (some { event := some "call_analyzed", call := some cdA })
        ((retell_webhook "" "" none
          (some { event := some "call_ended", call := some cdE })
          [c]).store)).store.map Call.transcript = [cdE.transcript])
    ∧ ∀ c2 : Call, truthyStr c2.transcript = true →
        (applyCallAnalyzed cdA c2).transcript = c2.transcript := by
  constructor
  · rw [webhook_matched_singleton "call_ended" cdE c i hi hc hE]
    have h2 : (applyEvent "call_ended" cdE c).retell_call_id = some i := by
      simpa [applyEvent, applyCallEnded] using hc
    rw [webhook_matched_singleton "call_analyzed" cdA _ i hi h2 hA]
    simp [applyEvent, applyCallEnded, applyCallAnalyzed, ht]
  · intro c2 h
    simp [applyCallAnalyzed, h]

/-- Claim C1 witness: the amended theorem at a concrete input. -/
theorem claim1_transcript_preserved_witness :
    (retell_webhook "" "" none
        (some { event := some "call_analyzed", call := some cdAnalyzedHello })
        ((retell_webhook "" "" none
          (some { event := some "call_ended", call := some cdEndedFull })
          [callRecordA]).store)).store.map Call.transcript
      = [some "full transcript"] :=
  (claim1_transcript_preserved callRecordA "rc1" cdEndedFull cdAnalyzedHello
    (by decide) rfl rfl rfl (by decide)).1

/-! ## Claim C2 -/

/-- Claim C2: for a matched record whose transcript is unset, a
call_analyzed event carrying a non-empty transcript backfills the record
transcript with the event value. -/
theorem claim2_backfill (c : Call) (i : String) (cdA : WebhookCallData)
    (hi : i ≠ "") (hc : c.retell_call_id = some i) (hA : cdA.call_id = some i)
    (hnone : c.transcript = none) (ht : truthyStr cdA.transcript = true) :
    (retell_webhook "" "" none
        (some { event := some "call_analyzed", call := some cdA })
        [c]).store.map Call.transcript = [cdA.transcript] := by
  rw [webhook_matched_singleton "call_analyzed" cdA c i hi hc hA]
  simp [applyEvent, applyCallAnalyzed, ht, hnone, truthyStr_none]

/-- Claim C2 witness at a concrete input. -/
theorem claim2_backfill_witness :
    (retell_webhook "" "" none
        (some { event := some "call_analyzed", call := some cdAnalyzedHello })
        [callRecordA]).store.map Call.transcript = [some "hello"] :=
  claim2_backfill callRecordA "rc1" cdAnalyzedHello (by decide) rfl rfl rfl
    (by decide)

/-! ## Claim C3 -/

/-- Claim C3: a call_started event on a matched record acknowledges with
204, sets the status to ongoing, and replaying the same event is a no-op
acknowledged again with 204 and no error. -/
theorem claim3_started_idempotent (c : Call) (i : String) (cd : WebhookCallData)
    (hi : i ≠ "") (hc : c.retell_call_id = some i) (hcd : cd.call_id = some i) :
    ((retell_webhook "" "" none
        (some { event := some "call_started", call := some cd }) [c]).status = 204
      ∧ (retell_webhook "" "" none
          (some { event := some "call_started", call := some cd }) [c]).isError = false
      ∧ (retell_webhook "" "" none
          (some { event := some "call_started", call := some cd }) [c]).store.map
            Call.status = ["ongoing"])
    ∧ retell_webhook "" "" none
        (some { event := some "call_started", call := some cd })
        ((retell_webhook "" "" none
          (some { event := some "call_started", call := some cd }) [c]).store)
      = { status := 204, isError := false,
          store := (retell_webhook "" "" none
            (some { event := some "call_started", call := some cd }) [c]).store } := by
  have h1 := webhook_matched_singleton "call_started" cd c i hi hc hcd
  have h2 : (applyEvent "call_started" cd c).retell_call_id = some i := by
    simpa [applyEvent, applyCallStarted] using hc
  have h3 := webhook_matched_singleton "call_started" cd
    (applyEvent "call_started" cd c) i hi h2 hcd
  rw [h1]
  refine ⟨⟨rfl, rfl, by simp [applyEvent, applyCallStarted]⟩, ?_⟩
  rw [h3]
  simp [applyEvent, applyCallStarted]

/-- Claim C3 witness at a concrete input. -/
theorem claim3_started_idempotent_witness :
    (retell_webhook "" "" none
        (some { event := some "call_started", call := some cdBare })
        ((retell_webhook "" "" none
          (some { event := some "call_started", call := some cdBare })
          [callRecordA]).store)).store.map Call.status = ["ongoing"] := by
  have h := claim3_started_idempotent callRecordA "rc1" cdBare (by decide) rfl rfl
  rw [h.2]
  exact h.1.2.2

/-! ## Claim C4 -/

/-- Claim C4: a well-formed webhook event that passes or skips signature
verification, and whose call object lacks a truthy call id or whose id
matches no stored record, changes no call record and is acknowledged with
204 and no error. -/
theorem claim4_unmatched_ignored (api_key signature : String)
    (verifyResult : Option Bool) (p : WebhookPayload) (store : List Call)
    (hv : ¬(api_key ≠ "" ∧ signature ≠ "" ∧ verifyResult = some false))
    (h : truthyStr ((p.call.getD emptyCallData).call_id) = false
         ∨ ∀ c ∈ store,
             (c.retell_call_id == (p.call.getD emptyCallData).call_id) = false) :
    retell_webhook api_key signature verifyResult (some p) store
      = { status := 204, isError := false, store := store } := by
  have hbody : (match (some p : Option WebhookPayload) with
    | none => ({ status := 400, isError := true, store := store } : WebhookResponse)
    | some data =>
      let event := data.event.getD "unknown"
      let cd := data.call.getD emptyCallData
      if !(truthyStr cd.call_id) then
        { status := 204, isError := false, store := store }
      else
        match store.find? (fun c => c.retell_call_id == cd.call_id) with
        | none => { status := 204, isError := false, store := store }
        | some _ =>
          { status := 204, isError := false,
            store := updateFirst (fun c => c.retell_call_id == cd.call_id)
                       (applyEvent event cd) store })
      = ({ status := 204, isError := false, store := store } : WebhookResponse) := by
    rcases h with h | h
    · simp [h]
    · have hf : store.find?
          (fun c => c.retell_call_id == (p.call.getD emptyCallData).call_id) = none := by
        rw [List.find?_eq_none]
        intro x hx
        simp [h x hx]
      by_cases hc : truthyStr ((p.call.getD emptyCallData).call_id) = true
      · simp [hc, hf]
      · simp at hc
        simp [hc]
  unfold retell_webhook
  by_cases hks : api_key ≠ "" ∧ signature ≠ ""
  · rw [if_pos hks]
    match hvr : verifyResult with
    | none => exact hbody
    | some true => exact hbody
    | some false => exact absurd ⟨hks.1, hks.2, hvr ▸ rfl⟩ hv
  · rw [if_neg hks]
    exact hbody

/-- Claim C4 witness: an event for the unknown provider id zzz against a
store holding only the record for rc1 is acknowledged unchanged. -/
theorem claim4_unmatched_ignored_witness :
    retell_webhook "" "" none
        (some { event := some "call_ended",
                call := some { emptyCallData with call_id := some "zzz" } })
        [callRecordA]
      = { status := 204, isError := false, store := [callRecordA] } :=
  claim4_unmatched_ignored "" "" none
    { event := some "call_ended",
      call := some { emptyCallData with call_id := some "zzz" } }
    [callRecordA] (by decide) (Or.inr (by decide))

/-! ## Claim C8 -/

/-- Claim C8: with a configured shared secret and a present signature
header, a request on which the external verification primitive returns
false is rejected with a 401 client error and the store is untouched. -/
theorem claim8_signature_reject (api_key signature : String)
    (p : Option WebhookPayload) (store : List Call)
    (h1 : api_key ≠ "") (h2 : signature ≠ "") :
    retell_webhook api_key signature (some false) p store
      = { status := 401, isError := true, store := store } := by
  simp [retell_webhook, h1, h2]

/-- Claim C8 witness at a concrete input. -/
theorem claim8_signature_reject_witness :
    retell_webhook "key-1" "sig-1" (some false)
        (some { event := some "call_started", call := some cdBare })
        [callRecordA]
      = { status := 401, isError := true, store := [callRecordA] } :=
  claim8_signature_reject "key-1" "sig-1"
    (some { event := some "call_started", call := some cdBare })
    [callRecordA] (by decide) (by decide)

/-! ## Claim C9 -/

/-- Claim C9, counterexample: the field set of the list-endpoint summary
is not a subset of the field set of the detail endpoint, because the
summary carries the derived indicator fields has_transcript and
has_summary which the detail response does not have. -/
theorem claim9_counterexample :
    ¬ (∀ k ∈ (list_item callRecordA).map Prod.fst,
        k ∈ (detail_item callRecordA).map Prod.fst) := by
  decide

/-- Claim C9, amended: for a record with a non-null provider call id, the
summary fields other than the derived indicator fields has_transcript and
has_summary are a strict subset of the detail fields (the detail response
additionally has transcript, call_summary and lead_id), and the summary
never includes the transcript field. -/
theorem claim9_fields (c : Call) (h : c.retell_call_id ≠ none) :
    (∀ k ∈ ((list_item c).map Prod.fst).filter
        (fun k => !(k == "has_transcript") && !(k == "has_summary")),
      k ∈ (detail_item c).map Prod.fst)
    ∧ "transcript" ∈ (detail_item c).map Prod.fst
    ∧ "transcript" ∉ (list_item c).map Prod.fst := by
  refine ⟨?_, ?_, ?_⟩ <;> simp [list_item, detail_item]

/-- Claim C9 witness: the binder-free part at a concrete record. -/
theorem claim9_fields_witness :
    "transcript" ∈ (detail_item callRecordA).map Prod.fst
    ∧ "transcript" ∉ (list_item callRecordA).map Prod.fst :=
  (claim9_fields callRecordA (by decide)).2

/-! ## Claim C10 -/

/-- Claim C10: the call_analyzed handler writes call_summary and
recording_url unconditionally, so an event without an analysis object
sets call_summary to null and an event without a recording url sets
recording_url to null, erasing any previously stored values. -/
theorem claim10_analyzed_clobbers (cd : WebhookCallData) (c : Call) :
    (cd.call_analysis = none →
      (applyEvent "call_analyzed" cd c).call_summary = none)
    ∧ (cd.recording_url = none →
      (applyEvent "call_analyzed" cd c).recording_url = none) := by
  constructor
  · intro h
    simp [applyEvent, applyCallAnalyzed, h]
    split <;> rfl
  · intro h
    simp [applyEvent, applyCallAnalyzed, h]
    split <;> rfl

/-- Claim C10 witness: a bare call_analyzed event erases the stored
summary and recording url of callRecordB. -/
theorem claim10_analyzed_clobbers_witness :
    (applyEvent "call_analyzed" cdBare callRecordB).call_summary = none
    ∧ (applyEvent "call_analyzed" cdBare callRecordB).recording_url = none :=
  ⟨(claim10_analyzed_clobbers cdBare callRecordB).1 rfl,
   (claim10_analyzed_clobbers cdBare callRecordB).2 rfl⟩

/-! ## Claim C5 -/

/-- Claim C5: what the code actually does, in two parts. First conjunct:
for every InitiateCallRequest the initiation route returns HTTP 500 and
creates no record, because the route body reads the attributes lead_id,
lead_name and to_number which the schema does not declare (it declares
leadId, leadName and leadPhone), so the very first attribute access raises
AttributeError before the provisional record is built. Second conjunct:
the route body from the record construction onward, given resolvable
agent id and caller number and a successful placement, creates exactly one
record carrying the provider call id and the provider call status
defaulting to registered. The claim as written is therefore right about
the intended flow but wrong about the deployed code. -/
theorem claim5_initiation_broken :
    (∀ (cfg : RetellConfig) (o : ProviderOutcome) (newId : String)
       (req : InitiateCallRequest) (store : List Call),
       initiate_retell_call cfg o newId req store
         = { status := 500, isError := true, store := store })
    ∧ ∀ (cfg : RetellConfig) (newId lid lname : String)
        (tonum agent_id from_number cid cstatus : Option String)
        (store : List Call),
        pyOr agent_id cfg.default_agent_id ≠ "" →
        pyOr from_number cfg.default_from_number ≠ "" →
        (∀ c ∈ store, c.id ≠ newId) →
        initiate_flow cfg (.ok cid cstatus) newId lid lname tonum
            agent_id from_number store
          = { status := 200, isError := false,
              store := store ++
                [{ id := newId, lead_id := some lid, lead_name := some lname,
                   lead_phone := tonum, retell_call_id := cid,
                   status := cstatus.getD "registered",
                   transcript := none, call_summary := none,
                   recording_url := none, duration_ms := none,
                   created_at := none }] } := by
  constructor
  · intro cfg o newId req store
    rfl
  · intro cfg newId lid lname tonum agent_id from_number cid cstatus store
      hagent hfrom hfresh
    have hsvc : RetellService.initiate_call cfg agent_id from_number
        (.ok cid cstatus) = .ok (cid, cstatus) := by
      simp only [RetellService.initiate_call]
      rw [if_neg hagent, if_neg hfrom]
    simp only [initiate_flow, hsvc]
    rw [updateFirst_fresh _ store _ newId rfl hfresh]

/-- Claim C5 witness: both conjuncts at concrete inputs. -/
theorem claim5_initiation_broken_witness :
    (initiate_retell_call
        { default_agent_id := "agent-1", default_from_number := "+1000" }
        (.ok (some "rc9") (some "registered")) "uuid-1" sampleRequest []
      = { status := 500, isError := true, store := [] })
    ∧ initiate_flow
        { default_agent_id := "agent-1", default_from_number := "+1000" }
        (.ok (some "rc9") none) "uuid-1" "lead1" "Shivi"
        (some "+916261652154") none none []
      = { status := 200, isError := false,
          store := [{ id := "uuid-1", lead_id := some "lead1",
                      lead_name := some "Shivi",
                      lead_phone := some "+916261652154",
                      retell_call_id := some "rc9", status := "registered",
                      transcript := none, call_summary := none,
                      recording_url := none, duration_ms := none,
                      created_at := none }] } :=
  ⟨claim5_initiation_broken.1
      { default_agent_id := "agent-1", default_from_number := "+1000" }
      (.ok (some "rc9") (some "registered")) "uuid-1" sampleRequest [],
   claim5_initiation_broken.2
      { default_agent_id := "agent-1", default_from_number := "+1000" }
      "uuid-1" "lead1" "Shivi" (some "+916261652154") none none
      (some "rc9") none [] (by decide) (by decide) (by simp)⟩

/-! ## Claim C6 -/

/-- Claim C6: what the code actually does when no agent id is resolvable.
First conjunct: on the schema example request with an empty configured
default agent id the route returns HTTP 500 with no record ever created,
because the attribute mismatch described at claim C5 raises before the
configuration check; the claimed 400 response and record deletion are
unreachable. Second conjunct: the route body from the record construction
onward does satisfy the claim: when the resolved agent id is empty, the
provisional record is deleted, no new record survives and the caller gets
a 400 client error. -/
theorem claim6_config_error :
    (initiate_retell_call
        { default_agent_id := "", default_from_number := "" }
        .err "uuid-1" sampleRequest []
      = { status := 500, isError := true, store := [] })
    ∧ ∀ (cfg : RetellConfig) (o : ProviderOutcome) (newId lid lname : String)
        (tonum agent_id from_number : Option String) (store : List Call),
        pyOr agent_id cfg.default_agent_id = "" →
        (∀ c ∈ store, c.id ≠ newId) →
        initiate_flow cfg o newId lid lname tonum agent_id from_number store
          = { status := 400, isError := true, store := store } := by
  constructor
  · rfl
  · intro cfg o newId lid lname tonum agent_id from_number store hagent hfresh
    have hsvc : RetellService.initiate_call cfg agent_id from_number o
        = .error .config := by
      simp [RetellService.initiate_call, hagent]
    simp only [initiate_flow, hsvc]
    rw [filter_fresh store _ newId rfl hfresh]

/-- Claim C6 witness: both conjuncts at concrete inputs. -/
theorem claim6_config_error_witness :
    (initiate_retell_call
        { default_agent_id := "", default_from_number := "" }
        .err "uuid-1" sampleRequest []
      = { status := 500, isError := true, store := [] })
    ∧ initiate_flow
        { default_agent_id := "", default_from_number := "+1000" }
        .err "uuid-1" "lead1" "Shivi" (some "+916261652154") none none []
      = { status := 400, isError := true, store := [] } :=
  ⟨claim6_config_error.1,
   claim6_config_error.2
      { default_agent_id := "", default_from_number := "+1000" }
      .err "uuid-1" "lead1" "Shivi" (some "+916261652154") none none []
      (by decide) (by simp)⟩

/-! ## Claim C7 -/

/-- Claim C7: what the code actually does when the external placement
fails for a non-configuration reason. First conjunct: on the schema
example request with a fully configured service and a failing provider,
the route still returns HTTP 500 with no record, because the attribute
mismatch described at claim C5 raises before anything else; the claimed
502 response with a kept failed record is unreachable. Second conjunct:
the route body from the record construction onward does satisfy the
claim: on a provider-side failure the provisional record is kept with
status failed and the caller gets a 502 upstream error. -/
theorem claim7_provider_error :
    (initiate_retell_call
        { default_agent_id := "agent-1", default_from_number := "+1000" }
        .err "uuid-1" sampleRequest []
      = { status := 500, isError := true, store := [] })
    ∧ ∀ (cfg : RetellConfig) (newId lid lname : String)
        (tonum agent_id from_number : Option String) (store : List Call),
        pyOr agent_id cfg.default_agent_id ≠ "" →
        pyOr from_number cfg.default_from_number ≠ "" →
        (∀ c ∈ store, c.id ≠ newId) →
        initiate_flow cfg .err newId lid lname tonum agent_id from_number store
          = { status := 502, isError := true,
              store := store ++
                [{ id := newId, lead_id := some lid, lead_name := some lname,
                   lead_phone := tonum, retell_call_id := none,
                   status := "failed", transcript := none,
                   call_summary := none, recording_url := none,
                   duration_ms := none, created_at := none }] } := by
  constructor
  · rfl
  · intro cfg newId lid lname tonum agent_id from_number store hagent hfrom hfresh
    have hsvc : RetellService.initiate_call cfg agent_id from_number .err
        = .error .api := by
      simp only [RetellService.initiate_call]
      rw [if_neg hagent, if_neg hfrom]
    simp only [initiate_flow, hsvc]
    rw [updateFirst_fresh _ store _ newId rfl hfresh]

/-- Claim C7 witness: both conjuncts at concrete inputs. -/
theorem claim7_provider_error_witness :
    (initiate_retell_call
        { default_agent_id := "agent-1", default_from_number := "+1000" }
        .err "uuid-1" sampleRequest []
      = { status := 500, isError := true, store := [] })
    ∧ initiate_flow
        { default_agent_id := "agent-1", default_from_number := "+1000" }
        .err "uuid-1" "lead1" "Shivi" (some "+916261652154") none none []
      = { status := 502, isError := true,
          store := [{ id := "uuid-1", lead_id := some "lead1",
                      lead_name := some "Shivi",
                      lead_phone := some "+916261652154",
                      retell_call_id := none, status := "failed",
                      transcript := none, call_summary := none,
                      recording_url := none, duration_ms := none,
                      created_at := none }] } :=
  ⟨claim7_provider_error.1,
   claim7_provider_error.2
      { default_agent_id := "agent-1", default_from_number := "+1000" }
      "uuid-1" "lead1" "Shivi" (some "+916261652154") none none []
      (by decide) (by decide) (by simp)⟩
